import Mathlib

/-!
# Verification of the AutoAni-For-DownKyi rename tool

Shallow embedding of `src/main.py`.  The embedding covers:

* the filename-matching regular expression used by `rename_files`
  (translated as an explicit backtracking matcher with Python `re`
  semantics: leftmost-longest for greedy pieces, shortest-first for the
  lazy group, alternatives in written order, `re.IGNORECASE`);
* the per-match field extraction and new-name construction of
  `rename_files` (episode offset, title selection, quality suffix,
  name assembly), and the plan construction over a directory listing;
* the confirm-then-rename execution tail of `rename_files`;
* the episode-map construction and failure handling of
  `fetch_bangumi_data` (HTTP transport modelled as an oracle record,
  one `Except` per request made by the function).

Python's `\d`, `\s` and `str.strip()` operate on Unicode classes; the
embedding uses ASCII digits (`Char.isDigit`) and `Char.isWhitespace`,
which coincide on every filename shape the program recognizes.
-/

namespace AutoAni

/-- Characters matched by the regex `.` metacharacter (anything but a newline;
`re.DOTALL` is not set in the source). -/
def isDotChar (c : Char) : Bool := c ≠ '\n'

/-- Length of the longest prefix of `s` whose characters satisfy `p`. -/
def countWhile (p : Char → Bool) (s : List Char) : Nat := (s.takeWhile p).length

/-- Candidate consumption counts for a greedy repetition: `m, m-1, …, 0`. -/
def greedyCounts (m : Nat) : List Nat := (List.range (m + 1)).map (fun i => m - i)

/-- Candidate consumption counts for a lazy repetition: `0, 1, …, m`. -/
def lazyCounts (m : Nat) : List Nat := List.range (m + 1)

/-- Candidate counts for a greedy `+` repetition: `m, m-1, …, 1`. -/
def greedyCounts1 (m : Nat) : List Nat := (List.range m).map (fun i => m - i)

/-- Case-insensitive literal match (the pattern is compiled with
`re.IGNORECASE`); returns the rest of the input on success. -/
def stripCI : List Char → List Char → Option (List Char)
  | [], s => some s
  | _ :: _, [] => none
  | p :: ps, c :: cs => if p.toLower = c.toLower then stripCI ps cs else none

/-- Capture groups of the `rename_files` pattern, numbered as in the source:
1 = `第(\d+)话` digits, 2 = `EP(\d+)` digits, 3 = embedded title,
4 = codec, 5 = `HDR|SDR`, 6 = resolution, 7 = last extra quality word,
8 = extension. -/
structure ReGroups where
  g1 : Option String := none
  g2 : Option String := none
  g3 : Option String := none
  g4 : Option String := none
  g5 : Option String := none
  g6 : Option String := none
  g7 : Option String := none
  g8 : String := ""
deriving DecidableEq, Repr

/-- Try a list of literal alternatives in written order (Python alternation
semantics), passing the actually-matched input text to the continuation. -/
def tryAlts (alts : List String) (s : List Char)
    (k : String → List Char → Option ReGroups) : Option ReGroups :=
  alts.findSome? fun a =>
    match stripCI a.data s with
    | some rest => k (String.mk (s.take a.data.length)) rest
    | none => none

/-- Final pattern piece `\.([a-zA-Z0-9]+)$`. -/
def stageExt (s : List Char) (acc : ReGroups) : Option ReGroups :=
  match s with
  | '.' :: rest =>
      if rest ≠ [] ∧ rest.all (fun c => c.isAlpha || c.isDigit) then
        some { acc with g8 := String.mk rest }
      else none
  | _ => none

/-- Alternatives of the repeated quality-word group (pattern group 7). -/
def qualityAlts : List String := ["真彩", "Hi10P", "高码率", "高画质"]

/-- Pattern piece `(?:\s*(真彩|Hi10P|高码率|高画质))*` (greedy star, the last
iteration's text is kept as group 7).  `fuel` bounds the iteration count;
every iteration consumes at least one character, so `fuel = s.length`
reproduces the regex exactly. -/
def stageQual : Nat → List Char → ReGroups → Option ReGroups
  | 0, s, acc => stageExt s acc
  | fuel + 1, s, acc =>
      ((greedyCounts (countWhile Char.isWhitespace s)).findSome? fun n =>
        tryAlts qualityAlts (s.drop n) fun cap rest =>
          stageQual fuel rest { acc with g7 := some cap })
      <|> stageExt s acc

/-- Continuation after a resolution token was captured: the trailing
`(?:\s*超高清)?` of the resolution group, then the quality-word star. -/
def afterResolution (cap : String) (s : List Char) (acc : ReGroups) : Option ReGroups :=
  let acc := { acc with g6 := some cap }
  (((greedyCounts (countWhile Char.isWhitespace s)).findSome? fun n =>
      match stripCI "超高清".data (s.drop n) with
      | some rest => stageQual rest.length rest acc
      | none => none)
    <|> stageQual s.length s acc)

/-- Pattern piece `(?:\.(\d{3,4}P|4[Kk]|8[Kk])(?:\s*超高清)?)?`
(group 6, greedy optional; `\d{3,4}` tries four digits before three). -/
def stageResolution (s : List Char) (acc : ReGroups) : Option ReGroups :=
  (match s with
   | '.' :: s1 =>
      (([4, 3] : List Nat).findSome? fun nd =>
        let ds := s1.take nd
        if ds.length = nd ∧ ds.all Char.isDigit then
          match s1.drop nd with
          | p :: s2 =>
              if p.toLower = 'p' then afterResolution (String.mk (ds ++ [p])) s2 acc
              else none
          | [] => none
        else none)
      <|> tryAlts ["4K", "8K"] s1 fun cap rest => afterResolution cap rest acc
   | _ => none)
  <|> stageQual s.length s acc

/-- Pattern piece `(?:\.(HDR|SDR))?` (group 5, greedy optional). -/
def stageHdr (s : List Char) (acc : ReGroups) : Option ReGroups :=
  (match s with
   | '.' :: s1 =>
      tryAlts ["HDR", "SDR"] s1 fun cap rest =>
        stageResolution rest { acc with g5 := some cap }
   | _ => none)
  <|> stageResolution s acc

/-- Pattern piece `(?:\.(AVC|HEVC|H\.264|H\.265))?` (group 4, greedy
optional). -/
def stageCodec (s : List Char) (acc : ReGroups) : Option ReGroups :=
  (match s with
   | '.' :: s1 =>
      tryAlts ["AVC", "HEVC", "H.264", "H.265"] s1 fun cap rest =>
        stageHdr rest { acc with g4 := some cap }
   | _ => none)
  <|> stageHdr s acc

/-- Pattern piece `(?:\s*(.*?))?` (group 3: greedy whitespace, then a lazy
title capture). -/
def stageTitle (s : List Char) (acc : ReGroups) : Option ReGroups :=
  ((greedyCounts (countWhile Char.isWhitespace s)).findSome? fun nws =>
    let s1 := s.drop nws
    (lazyCounts (countWhile isDotChar s1)).findSome? fun nt =>
      stageCodec (s1.drop nt) { acc with g3 := some (String.mk (s1.take nt)) })
  <|> stageCodec s acc

/-- Pattern piece `(?:第(\d+)话|EP(\d+))` (the episode marker; the `第…话`
alternative is tried first, `\d+` is greedy). -/
def stageMarker (s : List Char) (acc : ReGroups) : Option ReGroups :=
  (match stripCI "第".data s with
   | some s1 =>
      (greedyCounts1 (countWhile Char.isDigit s1)).findSome? fun nd =>
        match stripCI "话".data (s1.drop nd) with
        | some s2 => stageTitle s2 { acc with g1 := some (String.mk (s1.take nd)) }
        | none => none
   | none => none)
  <|> (match stripCI "EP".data s with
   | some s1 =>
      (greedyCounts1 (countWhile Char.isDigit s1)).findSome? fun nd =>
        stageTitle (s1.drop nd) { acc with g2 := some (String.mk (s1.take nd)) }
   | none => none)

/-- Pattern piece `(?:正片\s*)?` (greedy optional). -/
def stageLeader (s : List Char) (acc : ReGroups) : Option ReGroups :=
  (match stripCI "正片".data s with
   | some s1 =>
      (greedyCounts (countWhile Char.isWhitespace s1)).findSome? fun n =>
        stageMarker (s1.drop n) acc
   | none => none)
  <|> stageMarker s acc

/-- `pattern.match(clean_name)` for the `rename_files` pattern: the leading
greedy `.*`, then the remaining pieces; `None` when nothing matches. -/
def matchPattern (s : List Char) : Option ReGroups :=
  (greedyCounts (countWhile isDotChar s)).findSome? fun n =>
    stageLeader (s.drop n) {}

/-- `filename.strip('\uFEFF').strip()` from the plan-building loop. -/
def cleanName (s : String) : String :=
  let noBom := ((s.data.dropWhile (· = '\uFEFF')).reverse.dropWhile (· = '\uFEFF')).reverse
  String.mk ((noBom.dropWhile Char.isWhitespace).reverse.dropWhile Char.isWhitespace).reverse

/-- Decimal parse of a capture consisting of digits (`int(...)` in the
source, applied only to `\d+` captures). -/
def parseNat (s : String) : Nat :=
  s.data.foldl (fun a c => a * 10 + (c.toNat - '0'.toNat)) 0

/-- `str.strip()`. -/
def trimStr (s : String) : String :=
  String.mk ((s.data.dropWhile Char.isWhitespace).reverse.dropWhile Char.isWhitespace).reverse

/-- `str.lower()`. -/
def lowerStr (s : String) : String := String.mk (s.data.map Char.toLower)

/-- `str.upper()`. -/
def upperStr (s : String) : String := String.mk (s.data.map Char.toUpper)

/-- `str(n).zfill(2)`. -/
def zfill2 (s : String) : String :=
  if s.length < 2 then String.mk (List.replicate (2 - s.length) '0') ++ s else s

/-- `original_num = int(match.group(1) or match.group(2))` (a successful
match always fills exactly one of the two digit groups, and a `\d+`
capture is never the empty string, so Python's `or` is `getD` here). -/
def original_num_of (g : ReGroups) : Nat :=
  parseNat (g.g1.getD (g.g2.getD ""))

/-- `original_title = match.group(3).strip() if match.group(3) else ""`. -/
def original_title_of (g : ReGroups) : String :=
  match g.g3 with
  | some t => trimStr t
  | none => ""

/-- `episode_num = original_num + (start_offset - 1) if start_offset > 0
else original_num` (the interactive shell only accepts offsets ≥ 1, so the
offset is a natural number). -/
def episode_number (original_num start_offset : Nat) : Nat :=
  if start_offset > 0 then original_num + (start_offset - 1) else original_num

/-- The title-selection block of `rename_files`: empty unless `add_titles`;
the metadata map is consulted only when `use_bangumi` is set and the map is
non-empty (Python dict truthiness), keyed by the original number with the
embedded title as the lookup default. -/
def final_title (add_titles use_bangumi : Bool) (episode_titles : List (Nat × String))
    (original_num : Nat) (original_title : String) : String :=
  if add_titles then
    if use_bangumi && !episode_titles.isEmpty then
      (episode_titles.lookup original_num).getD original_title
    else original_title
  else ""

/-- The inline resolution normalization of `rename_files`:
`resolution.upper()`, then `4K → 2160P`, `8K → 4320P`. -/
def normalize_resolution (r : String) : String :=
  let u := upperStr r
  if u = "4K" then "2160P" else if u = "8K" then "4320P" else u

/-- The `resolution_parts` block: when the HDR/SDR token matched and the
user supplied an HDR target resolution, use `f"{hdr_resolution}P"`;
otherwise the detected resolution, normalized, when present. -/
def resolution_parts (hdr_flag hdr_resolution resolution : Option String) : List String :=
  match hdr_flag, hdr_resolution with
  | some _, some hr => [hr ++ "P"]
  | _, _ =>
      match resolution with
      | some r => [normalize_resolution r]
      | none => []

/-- `"真彩" in extra_flags` (Python substring containment). -/
def containsSeg (p : List Char) : List Char → Bool
  | [] => p.isEmpty
  | c :: t => p.isPrefixOf (c :: t) || containsSeg p t

/-- `hdr_detected = bool(hdr_flag) or (extra_flags and "真彩" in extra_flags)`. -/
def hdr_detected (hdr_flag extra_flags : Option String) : Bool :=
  hdr_flag.isSome ||
    (match extra_flags with
     | some f => containsSeg "真彩".data f.data
     | none => false)

/-- The `quality_parts` list: upper-cased codec, then the resolution parts,
then an `"HDR"` marker when detected. -/
def quality_parts (codec hdr_flag hdr_resolution resolution extra_flags : Option String) :
    List String :=
  (match codec with
   | some c => [upperStr c]
   | none => []) ++
  resolution_parts hdr_flag hdr_resolution resolution ++
  (if hdr_detected hdr_flag extra_flags then ["HDR"] else [])

/-- `quality_suffix = "." + ".".join(quality_parts) if quality_parts else ""`. -/
def quality_suffix_of (codec hdr_flag hdr_resolution resolution extra_flags : Option String) :
    String :=
  let qp := quality_parts codec hdr_flag hdr_resolution resolution extra_flags
  if qp.isEmpty then "" else "." ++ String.intercalate "." qp

/-- `f"S{str(season).zfill(2)}E{str(episode_num).zfill(2)}" if season else
f"E{str(episode_num).zfill(2)}"` (Python truthiness: season 0 or `None`
both select the `E`-only form). -/
def season_episode (season : Option Int) (episode_num : Nat) : String :=
  match season with
  | some s =>
      if s ≠ 0 then "S" ++ zfill2 (toString s) ++ "E" ++ zfill2 (toString episode_num)
      else "E" ++ zfill2 (toString episode_num)
  | none => "E" ++ zfill2 (toString episode_num)

/-- The `parts` list of the name-assembly block: bracketed subgroup and
prefix when non-empty, the season/episode designator, and the stripped
title when it is non-empty. -/
def name_parts (subgroup pfx : String) (seasonEpStr : String) (title : String) :
    List String :=
  (if subgroup ≠ "" then ["[" ++ subgroup ++ "]"] else []) ++
  (if pfx ≠ "" then [pfx] else []) ++
  [seasonEpStr] ++
  (if trimStr title ≠ "" then [trimStr title] else [])

/-- `new_name = " ".join(parts) + quality_suffix + f".{ext}"`. -/
def new_name (subgroup pfx : String) (season : Option Int) (episode_num : Nat)
    (title : String) (quality_suffix : String) (ext : String) : String :=
  String.intercalate " " (name_parts subgroup pfx (season_episode season episode_num) title)
    ++ quality_suffix ++ "." ++ ext

/-- The body of the plan-building loop for one matched filename: extract
the groups as `rename_files` does and build the proposed name. -/
def process_match (g : ReGroups) (subgroup pfx : String) (season : Option Int)
    (episode_titles : List (Nat × String)) (use_bangumi : Bool) (start_offset : Nat)
    (add_titles : Bool) (hdr_resolution : Option String) : String :=
  let original_num := original_num_of g
  let ep := episode_number original_num start_offset
  let title := final_title add_titles use_bangumi episode_titles original_num
    (original_title_of g)
  let qs := quality_suffix_of g.g4 g.g5 hdr_resolution g.g6 g.g7
  new_name subgroup pfx season ep title qs (lowerStr g.g8)

/-- The `preview` list built by `rename_files` over a directory listing:
one `(filename, new_name)` pair per filename whose cleaned form matches the
pattern, in enumeration order; non-matching filenames contribute nothing. -/
def rename_plan (files : List String) (subgroup pfx : String) (season : Option Int)
    (episode_titles : List (Nat × String)) (use_bangumi : Bool) (start_offset : Nat)
    (add_titles : Bool) (hdr_resolution : Option String) : List (String × String) :=
  files.filterMap fun fn =>
    (matchPattern (cleanName fn).data).map fun g =>
      (fn, process_match g subgroup pfx season episode_titles use_bangumi start_offset
        add_titles hdr_resolution)

/-- `confirm.strip().lower() in ('', 'y', 'yes')`. -/
def confirm_ok (confirm : String) : Bool :=
  let c := lowerStr (trimStr confirm)
  c = "" || c = "y" || c = "yes"

/-- Outcome of the execution tail of `rename_files`: the returned boolean,
the `(old, new)` pairs actually handed to `os.rename`, and the per-file
outcomes (each rename raises or succeeds independently). -/
structure ExecResult where
  success : Bool
  attempted : List (String × String)
  results : List (Except String Unit)

/-- The execution tail of `rename_files`: return `False` on an empty
preview or a declined confirmation before touching the filesystem;
otherwise attempt every rename (`op` models `os.rename`, failures are
caught per file and ignored) and return `True`. -/
def rename_files_exec (preview : List (String × String)) (confirm : String)
    (op : String → String → Except String Unit) : ExecResult :=
  if preview.isEmpty then ⟨false, [], []⟩
  else if !confirm_ok confirm then ⟨false, [], []⟩
  else ⟨true, preview, preview.map fun e => op e.1 e.2⟩

/-- One element of the episode list returned by the metadata API, with the
fields `fetch_bangumi_data` reads (`dict.get` yields `None` for missing
keys; `sort` and `ep` are integer-valued for the episodes the code keys
on, `int(ep_num)` is the identity there). -/
structure ApiEpisode where
  type : Option Int
  sort : Option Int
  ep : Option Int
  name_cn : Option String
  name : Option String
deriving DecidableEq, Repr

/-- Python `a or b` on optional integers (`0` is falsy). -/
def pyOrInt (a b : Option Int) : Option Int :=
  match a with
  | some v => if v ≠ 0 then some v else b
  | none => b

/-- Python `a or b` where `a` is an optional string (`""` is falsy). -/
def pyOrStr (a : Option String) (b : String) : String :=
  match a with
  | some s => if s ≠ "" then s else b
  | none => b

/-- `ep.get("name_cn") or ep.get("name") or f"第{ep_num}话"`. -/
def episode_title (e : ApiEpisode) (n : Int) : String :=
  pyOrStr e.name_cn (pyOrStr e.name ("第" ++ toString n ++ "话"))

/-- The episode number `fetch_bangumi_data` keys an episode on:
`ep.get("sort") or ep.get("ep")`, only for main-story entries
(`ep.get("type") == 0`); `none` when the entry is skipped. -/
def ep_key (e : ApiEpisode) : Option Int :=
  if e.type = some 0 then pyOrInt e.sort e.ep else none

/-- Insertion into the episode map (`episodes[int(ep_num)] = ep_name`:
overwrite the value when the key exists, else append). -/
def insertEp : List (Int × String) → Int → String → List (Int × String)
  | [], n, t => [(n, t)]
  | (k, v) :: rest, n, t =>
      if k = n then (k, t) :: rest else (k, v) :: insertEp rest n t

/-- One iteration of the `for ep in episodes_data` loop. -/
def ep_step (m : List (Int × String)) (e : ApiEpisode) : List (Int × String) :=
  match ep_key e with
  | some n => insertEp m n (episode_title e n)
  | none => m

/-- The `episodes` dictionary built by `fetch_bangumi_data`. -/
def build_episode_map (l : List ApiEpisode) : List (Int × String) :=
  l.foldl ep_step []

/-- The subject record returned by the metadata API, restricted to the
fields the client writes (`anime_data['tags'] = ...`). -/
structure AnimeData where
  name : Option String
  name_cn : Option String
  summary : Option String
  tags : List String
deriving DecidableEq

/-- One `Except` per HTTP request `fetch_bangumi_data` can issue: an error
models `requests.get` raising, `raise_for_status` on a non-2xx response,
or `.json()` failing to decode — all of which the function's `try` catches
alike.  The tags request carries its status code because the source checks
it instead of calling `raise_for_status`. -/
structure ApiOracle where
  subject : Except String AnimeData
  episodesV0 : Except String (List ApiEpisode)
  episodesLegacy : Except String (List ApiEpisode)
  tags : Except String (Nat × List String)

/-- The `try` body of `fetch_bangumi_data`: subject lookup, episode
listing with the legacy fallback when the v0 list is empty, episode-map
construction, then the tags request (non-200 yields an empty tag list). -/
def fetch_try (o : ApiOracle) : Except String (Option AnimeData × List (Int × String)) := do
  let anime ← o.subject
  let epsData ← o.episodesV0
  let epsData ← if epsData.isEmpty then o.episodesLegacy else pure epsData
  let episodes := build_episode_map epsData
  let tagsRes ← o.tags
  let anime := if tagsRes.1 = 200 then { anime with tags := tagsRes.2 }
    else { anime with tags := [] }
  pure (some anime, episodes)

/-- `fetch_bangumi_data`: the `try` body with its `except` clause — any
failure collapses to `(None, {})`.  The function is total (it returns a
plain pair for every oracle), which is the embedded form of "never raises
past the client boundary". -/
def fetch_bangumi_data (o : ApiOracle) : Option AnimeData × List (Int × String) :=
  match fetch_try o with
  | Except.ok r => r
  | Except.error _ => (none, [])

/-! ## Helper lemmas -/

theorem lookup_insertEp (m : List (Int × String)) (k : Int) (t : String) (n : Int) :
    (insertEp m k t).lookup n = if n = k then some t else m.lookup n := by
  induction m with
  | nil =>
      by_cases hn : n = k
      · subst hn; simp [insertEp, List.lookup]
      · simp [insertEp, List.lookup, hn, beq_false_of_ne hn]
  | cons hd tl ih =>
      obtain ⟨k', v'⟩ := hd
      by_cases hk : k' = k
      · subst hk
        by_cases hn : n = k'
        · subst hn; simp [insertEp, List.lookup]
        · simp [insertEp, List.lookup, hn, beq_false_of_ne hn]
      · by_cases hn : n = k'
        · subst hn
          simp [insertEp, hk, List.lookup]
        · simp [insertEp, hk, List.lookup, beq_false_of_ne hn, ih]

theorem lookup_ep_step (m : List (Int × String)) (e : ApiEpisode) (n : Int) :
    (ep_step m e).lookup n
      = if ep_key e = some n then some (episode_title e n) else m.lookup n := by
  unfold ep_step
  cases hk : ep_key e with
  | none => simp
  | some k =>
      rw [lookup_insertEp]
      by_cases hn : n = k
      · subst hn; simp
      · have hkn : ¬(k = n) := fun h => hn h.symm
        simp [hn, hkn]

theorem build_episode_map_aux (l : List ApiEpisode) (acc : List (Int × String)) (n : Int) :
    (l.foldl ep_step acc).lookup n
      = match l.reverse.find? (fun e => ep_key e == some n) with
        | some e => some (episode_title e n)
        | none => acc.lookup n := by
  induction l generalizing acc with
  | nil => simp
  | cons e tl ih =>
      rw [List.foldl_cons, ih, List.reverse_cons, List.find?_append]
      cases h : tl.reverse.find? (fun e => ep_key e == some n) with
      | some e' => simp [h, Option.orElse]
      | none =>
          rw [lookup_ep_step]
          by_cases hp : ep_key e = some n
          · simp [h, hp, Option.orElse, List.find?]
          · simp [h, hp, Option.orElse, List.find?, beq_false_of_ne hp]

/-! ## Claims -/

/-- Claim C1: in the quality suffix, the user-supplied HDR target resolution
replaces the detected resolution exactly when the match carries the HDR/SDR
flag token and a target was supplied; in every other case the detected
resolution, normalized, is used (when present). -/
theorem claim1_hdr_target_precedence
    (codec hdr_flag hdr_resolution resolution extra_flags : Option String) :
    quality_parts codec hdr_flag hdr_resolution resolution extra_flags
      = (codec.map upperStr).toList
        ++ (if hdr_flag.isSome ∧ hdr_resolution.isSome
            then [hdr_resolution.getD "" ++ "P"]
            else (resolution.map normalize_resolution).toList)
        ++ (if hdr_detected hdr_flag extra_flags then ["HDR"] else []) := by
  cases hdr_flag <;> cases hdr_resolution <;> cases resolution <;> cases codec <;>
    simp [quality_parts, resolution_parts]

/-- Claim C2: the effective episode number is `N + k - 1` for a positive
numbering offset `k` and `N` unchanged for offset `0`. -/
theorem claim2_numbering_offset (n k : Nat) :
    (0 < k → episode_number n k = n + k - 1) ∧ (k = 0 → episode_number n k = n) := by
  constructor
  · intro h
    unfold episode_number
    rw [if_pos h]
    omega
  · intro h
    subst h
    rfl

/-- Witness for C2 at the spec's own example: original number 1 with
offset 13 gives effective number 13. -/
theorem claim2_numbering_offset_witness : episode_number 1 13 = 1 + 13 - 1 :=
  (claim2_numbering_offset 1 13).1 (by decide)

/-- Claim C3: with titles enabled (`add_titles`, `use_bangumi`, non-empty
map), the display title is the map entry for the original, pre-offset
number, defaulting to the embedded title — while the episode designator
uses the offset number; and when the lookup misses and no title was
embedded, the assembled name carries no title component. -/
theorem claim3_title_selection (titles : List (Nat × String)) (g : ReGroups)
    (sg pfx : String) (season : Option Int) (off : Nat) (hdrres : Option String)
    (hne : titles ≠ []) :
    (process_match g sg pfx season titles true off true hdrres
      = new_name sg pfx season (episode_number (original_num_of g) off)
          ((titles.lookup (original_num_of g)).getD (original_title_of g))
          (quality_suffix_of g.g4 g.g5 hdrres g.g6 g.g7) (lowerStr g.g8))
    ∧ (titles.lookup (original_num_of g) = none → g.g3 = none →
        process_match g sg pfx season titles true off true hdrres
          = String.intercalate " "
              ((if sg ≠ "" then ["[" ++ sg ++ "]"] else []) ++
               (if pfx ≠ "" then [pfx] else []) ++
               [season_episode season (episode_number (original_num_of g) off)])
            ++ quality_suffix_of g.g4 g.g5 hdrres g.g6 g.g7 ++ "." ++ lowerStr g.g8) := by
  have hemp : titles.isEmpty = false := by
    cases titles with
    | nil => exact absurd rfl hne
    | cons a l => rfl
  constructor
  · simp [process_match, final_title, hemp]
  · intro hmiss hg3
    simp [process_match, final_title, hemp, hmiss, hg3, original_title_of,
      new_name, name_parts, trimStr]

/-- Witness for C3: offset 13, a map without the matched number 5, and no
embedded title — the name has no title component and shows `E17`. -/
theorem claim3_title_selection_witness :
    process_match { g1 := some "5", g8 := "mp4" } "" "X" none [(1, "B")] true 13 true none
      = String.intercalate " "
          ((if ("" : String) ≠ "" then ["[" ++ "" ++ "]"] else []) ++
           (if ("X" : String) ≠ "" then ["X"] else []) ++
           [season_episode none (episode_number (original_num_of { g1 := some "5", g8 := "mp4" }) 13)])
        ++ quality_suffix_of none none none none none ++ "." ++ lowerStr "mp4" :=
  (claim3_title_selection [(1, "B")] { g1 := some "5", g8 := "mp4" } "" "X" none 13 none
    (by decide)).2 (by decide) rfl

/-- Claim C4: the spec's end-to-end scenario — two `正片 第N话 title.mp4`
files, prefix `MyShow`, season 1, titles from the filenames, offset 0 —
produces exactly the two expected plan entries. -/
theorem claim4_end_to_end :
    rename_plan ["正片 第1话 初见.mp4", "正片 第2话 重逢.mp4"] "" "MyShow" (some 1)
        [] false 0 true none
      = [("正片 第1话 初见.mp4", "MyShow S01E01 初见.mp4"),
         ("正片 第2话 重逢.mp4", "MyShow S01E02 重逢.mp4")] := by decide

/-- Claim C5: a filename whose cleaned form the matcher rejects never
appears as the original of a plan entry. -/
theorem claim5_no_match_skipped (files : List String) (sg pfx : String)
    (season : Option Int) (titles : List (Nat × String)) (ub : Bool) (off : Nat)
    (addt : Bool) (hdrres : Option String) (f : String)
    (h : matchPattern (cleanName f).data = none) :
    f ∉ (rename_plan files sg pfx season titles ub off addt hdrres).map Prod.fst := by
  intro hmem
  simp only [rename_plan, List.map_filterMap, List.mem_filterMap] at hmem
  obtain ⟨fn, _, hopt⟩ := hmem
  cases hg : matchPattern (cleanName fn).data with
  | none => rw [hg] at hopt; simp at hopt
  | some g =>
      rw [hg] at hopt
      simp at hopt
      subst hopt
      rw [h] at hg
      exact Option.noConfusion hg

/-- Witness for C5: `readme.txt` does not match and is absent from the plan
of a directory containing it. -/
theorem claim5_no_match_skipped_witness :
    "readme.txt" ∉ (rename_plan ["readme.txt", "正片 第1话.mp4"] "" "X" none [] false 0
      true none).map Prod.fst :=
  claim5_no_match_skipped ["readme.txt", "正片 第1话.mp4"] "" "X" none [] false 0
    true none "readme.txt" (by decide)

/-- Claim C6: resolution normalization maps `4K` to `2160P` and `8K` to
`4320P`, and passes any other token through uppercased and otherwise
unchanged. -/
theorem claim6_resolution_normalization :
    normalize_resolution "4K" = "2160P" ∧ normalize_resolution "8K" = "4320P"
    ∧ normalize_resolution "1080P" = "1080P"
    ∧ ∀ r : String, upperStr r ≠ "4K" → upperStr r ≠ "8K" →
        normalize_resolution r = upperStr r := by
  refine ⟨by decide, by decide, by decide, ?_⟩
  intro r h4 h8
  simp [normalize_resolution, h4, h8]

/-- Witness for C6 at `720p`. -/
theorem claim6_resolution_normalization_witness :
    normalize_resolution "720p" = upperStr "720p" :=
  claim6_resolution_normalization.2.2.2 "720p" (by decide) (by decide)

/-- Counterexample to Claim C7 as stated: a main-story episode (type 0)
carrying neither `sort` nor `ep` is silently dropped, so the mapping does
not contain exactly the main-story episodes. -/
theorem claim7_counterexample :
    (⟨some 0, none, none, some "T", some "U"⟩ : ApiEpisode).type = some 0
    ∧ build_episode_map [⟨some 0, none, none, some "T", some "U"⟩] = [] :=
  ⟨rfl, rfl⟩

/-- Claim C7 (amended): the mapping associates a number `n` with a title
exactly when some main-story episode yields `n` from `sort or ep`
(Python truthiness), and the stored title is computed by the
localized-name / original-name / `第N话`-placeholder rule
(`episode_title`) from the last such episode. -/
theorem claim7_episode_map (l : List ApiEpisode) (n : Int) :
    (build_episode_map l).lookup n
      = (l.reverse.find? (fun e => ep_key e == some n)).map
          (fun e => episode_title e n) := by
  rw [build_episode_map, build_episode_map_aux]
  cases h : l.reverse.find? (fun e => ep_key e == some n) <;> simp [List.lookup]

/-- Claim C8: whenever any of the requests of a metadata fetch fails
(transport or decode), the client returns a null record and an empty
episode mapping; `fetch_bangumi_data` is a total function into plain
pairs, so no exception crosses the boundary. -/
theorem claim8_failure_yields_empty (o : ApiOracle) (e : String)
    (h : fetch_try o = Except.error e) :
    fetch_bangumi_data o = (none, []) := by
  unfold fetch_bangumi_data
  rw [h]

/-- Witness for C8: a fully failing transport yields `(none, [])`. -/
theorem claim8_failure_yields_empty_witness :
    fetch_bangumi_data ⟨Except.error "network down", Except.error "network down",
      Except.error "network down", Except.error "network down"⟩ = (none, []) :=
  claim8_failure_yields_empty
    ⟨Except.error "network down", Except.error "network down",
      Except.error "network down", Except.error "network down"⟩ "network down" rfl

/-- Counterexample to Claim C9 as stated: when the user-supplied prefix
itself contains an episode marker (`EP1 Show`), a first-pass output such as
`[G] EP1 Show S01E01 你好.mp4` matches the pattern again, so the second
pass over the first pass's outputs is not empty. -/
theorem claim9_counterexample :
    rename_plan ((rename_plan ["正片 第1话 你好.mp4"] "G" "EP1 Show" (some 1) [] false 0
        true none).map Prod.snd) "G" "EP1 Show" (some 1) [] false 0 true none ≠ [] := by
  decide

/-- Claim C9 (amended): for the spec's end-to-end scenario, whose
parameters contain no episode marker, applying the planner to its own
first-pass outputs yields zero matches and hence an empty plan. -/
theorem claim9_second_pass_empty :
    rename_plan ((rename_plan ["正片 第1话 初见.mp4", "正片 第2话 重逢.mp4"] "" "MyShow"
        (some 1) [] false 0 true none).map Prod.snd) "" "MyShow" (some 1) [] false 0
      true none = [] := by
  decide

/-- Claim C10: execution returns `True` exactly when the plan is non-empty
and the confirmation is accepted — independently of the rename oracle, so
even when every rename raises — and whenever it returns `False` no rename
was attempted. -/
theorem claim10_execution_result (preview : List (String × String)) (confirm : String)
    (op : String → String → Except String Unit) :
    ((rename_files_exec preview confirm op).success = true
        ↔ preview ≠ [] ∧ confirm_ok confirm = true)
    ∧ (rename_files_exec preview confirm op).attempted
        = (if (rename_files_exec preview confirm op).success = true then preview
           else []) := by
  cases preview with
  | nil => simp [rename_files_exec]
  | cons a l =>
      by_cases hc : confirm_ok confirm <;> simp [rename_files_exec, hc]

end AutoAni
